import Mathlib

/-!
Verification of the go-to-rust concurrency abstraction layer
(`src/rust/05-final`): the `Controller` sequencer, the `device` singleton
dispatcher, the `ImplBox` opaque handle, and the tokio-backed async
readers-writer lock, shallowly embedded as pure Lean functions and a small
interleaving transition system.
-/

namespace GoToRust

/-- Two's-complement wrap of an unbounded integer into the `i32` range
`[-2^31, 2^31)`, modelling Rust release-mode `i32` addition overflow. -/
def wrap32 (n : Int) : Int := (n + 2 ^ 31) % 2 ^ 32 - 2 ^ 31

/-- Lock acquisition / release events emitted by the `Controller` methods,
recording every `.read().await` / `.write().await` on the request-data lock
(from `controller/src/lib.rs`). -/
inductive Event where
  | writeAcq
  | writeRel
  | readAcq
  | readRel
  deriving DecidableEq, Repr

/-- The request state guarded by the lock: `struct ReqData { seq: i32,
last_path: String }` from `controller/src/lib.rs`. `seq` is an `i32`, kept
in the `i32` range by `wrap32` at each increment. -/
structure ReqData where
  seq : Int
  last_path : String
  deriving DecidableEq, Repr

/-- `impl Default for ReqData`: `{ seq: 0, last_path: "" }`. -/
def ReqData.default : ReqData := { seq := 0, last_path := "" }

namespace Controller

/-- `Controller::request`: acquire the write lock, increment `seq`
(an unguarded `i32` `+= 1`, hence `wrap32`), then (across an await point,
standing in for the pretend network call) set
`last_path = format!("{path}&seq={}", seq)`, release on scope exit, and
return `Ok(())`. Result: new state, lock events, and the `Result`. -/
def request (s : ReqData) (path : String) :
    ReqData × List Event × Except String Unit :=
  let seq' := wrap32 (s.seq + 1)
  ({ seq := seq', last_path := path ++ "&seq=" ++ toString seq' },
   [Event.writeAcq, Event.writeRel], Except.ok ())

/-- `Controller::one`: reject `val == 3` with the business error
`"sorry, not that one"` before touching any state; otherwise run
`request("one?val={val}")`, propagate its error (`?`), then read-lock and
return `seq`. -/
def one (s : ReqData) (val : Int) :
    ReqData × List Event × Except String Int :=
  if val = 3 then
    (s, [], Except.error "sorry, not that one")
  else
    match request s ("one?val=" ++ toString val) with
    | (s', ev, Except.ok ()) =>
        (s', ev ++ [Event.readAcq, Event.readRel], Except.ok s'.seq)
    | (s', ev, Except.error e) => (s', ev, Except.error e)

/-- `Controller::two`: run `request("two?val={val}")`, propagate its error
(`?`), then read-lock and return `last_path`. -/
def two (s : ReqData) (val : String) :
    ReqData × List Event × Except String String :=
  match request s ("two?val=" ++ toString val) with
  | (s', ev, Except.ok ()) =>
      (s', ev ++ [Event.readAcq, Event.readRel], Except.ok s'.last_path)
  | (s', ev, Except.error e) => (s', ev, Except.error e)

end Controller

/-- The singleton dispatcher state from `device/src/lib.rs`: the
`RwLock<Option<Controller<TokioRuntime>>>` slot, holding `none` until
`init()` stores a fresh controller.  (The lazily-built tokio engine only
drives futures to completion; in this sequential embedding running a future
to completion is function application.) -/
structure Device where
  controller : Option ReqData
  deriving DecidableEq, Repr

namespace Device

/-- The slot before `init` has ever been called: `Default::default()` of
`RwLock<Option<_>>`, i.e. `None`. -/
def empty : Device := { controller := none }

/-- `device::init`: write-lock the slot and store `Some(Controller::new())`;
`Controller::new()` builds the default request state `{0, ""}`. -/
def init (_d : Device) : Device := { controller := some ReqData.default }

/-- `run_method`: read-lock the slot; if it is empty fail with
`"call init first"` and leave everything untouched; otherwise run the
requested controller method on the singleton to completion.  Specialised
here to `Controller::one`. -/
def one (d : Device) (val : Int) : Device × Except String Int :=
  match d.controller with
  | none => (d, Except.error "call init first")
  | some s =>
      let (s', _, r) := Controller.one s val
      ({ controller := some s' }, r)

/-- `run_method` specialised to `Controller::two` (see `Device.one`). -/
def two (d : Device) (val : String) : Device × Except String String :=
  match d.controller with
  | none => (d, Except.error "call init first")
  | some s =>
      let (s', _, r) := Controller.two s val
      ({ controller := some s' }, r)

end Device

/-- The concrete backend lock from `runtime-tokio/src/rwlock.rs`:
`TokioLockWrapper<T> { lock: tokio::sync::RwLock<T> }`.  Functionally the
wrapper owns the protected value; the dynamic acquire/release discipline is
modelled separately by `RaceStep`. -/
structure TokioLockWrapper (T : Type) where
  lock : T
  deriving DecidableEq, Repr

/-- `AsyncRwLock::new` as implemented by `TokioLockWrapper`. -/
def TokioLockWrapper.new {T : Type} (item : T) : TokioLockWrapper T :=
  { lock := item }

/-- `AsyncRwLock::read` as implemented by `TokioLockWrapper`: the value the
read guard dereferences to. -/
def TokioLockWrapper.readGuard {T : Type} (l : TokioLockWrapper T) : T :=
  l.lock

/-- `std::any::TypeId` modelled as a natural-number identity tag. -/
abbrev TypeId := Nat

/-- Distinct `TypeId`s for the two concrete payload types this system ever
boxes: `TokioLockWrapper<i32>` and `TokioLockWrapper<ReqData>`. -/
def typeIdLockI32 : TypeId := 0

/-- `TypeId` of `TokioLockWrapper<ReqData>` (distinct from `typeIdLockI32`). -/
def typeIdLockReqData : TypeId := 1

/-- The erased payload behind an `ImplBox`'s `*const ()` raw pointer: a
closed universe of the concrete types the repository actually boxes. -/
inductive Payload where
  | lockI32 : TokioLockWrapper Int → Payload
  | lockReqData : TokioLockWrapper ReqData → Payload
  deriving DecidableEq, Repr

/-- `ImplBox<T>` from `base/implbox/src/lib.rs`: a runtime type tag `id`,
the erased owning pointer `ptr`, and the release callback `destroy` (a
no-op in this pure embedding — `Drop` runs it exactly once). The phantom
marker parameter `T` plays no functional role and is omitted. -/
structure ImplBox where
  id : TypeId
  ptr : Payload
  destroy : Payload → Unit

namespace ImplBox

/-- `ImplBox::new(id, destroy, ptr)`. -/
def new (id : TypeId) (destroy : Payload → Unit) (ptr : Payload) : ImplBox :=
  { id := id, ptr := ptr, destroy := destroy }

/-- `ImplBox::with(id, f)`: run `f` on the raw pointer when the expected
tag equals the stored tag, else `panic!("id mismatch")`.  The panic is
embedded as `Except.error "id mismatch"`; it is never an ordinary (`ok`)
result.  (`with` is a Lean keyword, so the spec's name `withPayload` is
used.) -/
def withPayload {Ret : Type} (b : ImplBox) (id : TypeId) (f : Payload → Ret) :
    Except String Ret :=
  if b.id = id then Except.ok (f b.ptr) else Except.error "id mismatch"

end ImplBox

namespace TokioRuntime

/-- Modelled from the spec: `TokioRuntime::box_lock` for payload type
`i32` is generated by the `implbox_decls` / `implbox_impls` macros (the
`implbox_macros` crate is not under `src/`); per the spec (§4.3) and the
implbox module docs it boxes `new_lock(item)` into an `ImplBox` tagged
with the concrete type `TokioLockWrapper<i32>`. -/
def box_lock_i32 (item : Int) : ImplBox :=
  ImplBox.new typeIdLockI32 (fun _ => ())
    (Payload.lockI32 (TokioLockWrapper.new item))

/-- Modelled from the spec: `box_lock` instantiated at `ReqData`
(`Controller::default` boxes its request state this way). -/
def box_lock_reqData (item : ReqData) : ImplBox :=
  ImplBox.new typeIdLockReqData (fun _ => ())
    (Payload.lockReqData (TokioLockWrapper.new item))

/-- The macro-generated reinterpretation of the raw pointer as
`&TokioLockWrapper<i32>`; `none` marks a payload that is not of that
concrete type (unreachable for correctly boxed handles). -/
def cast_lock_i32 : Payload → Option (TokioLockWrapper Int)
  | Payload.lockI32 l => some l
  | _ => none

/-- Reinterpretation of the raw pointer as `&TokioLockWrapper<ReqData>`
(see `cast_lock_i32`). -/
def cast_lock_reqData : Payload → Option (TokioLockWrapper ReqData)
  | Payload.lockReqData l => some l
  | _ => none

/-- Modelled from the spec: `TokioRuntime::unbox_lock` at `i32` — the
matching accessor calls `ImplBox::with` with the `TypeId` of
`TokioLockWrapper<i32>` and casts the pointer back. -/
def unbox_lock_i32 (b : ImplBox) :
    Except String (Option (TokioLockWrapper Int)) :=
  b.withPayload typeIdLockI32 cast_lock_i32

/-- Modelled from the spec: `unbox_lock` at `ReqData` (the mismatched
accessor from the point of view of an `i32`-boxed handle). -/
def unbox_lock_reqData (b : ImplBox) :
    Except String (Option (TokioLockWrapper ReqData)) :=
  b.withPayload typeIdLockReqData cast_lock_reqData

end TokioRuntime

/-- Combined state of the `test_lock` scenario from
`runtime-tokio/src/rwlock/tests.rs`: the shared lock (writer / reader
holder counts plus the protected `i32`, modelled from the spec — the
engine's native readers-writer primitive is external to `src/`), the
oneshot channel flag, and the two tasks' program counters together with
the values their `assert_eq!` statements observe. -/
structure RaceState where
  writers : Nat
  readers : Nat
  value : Int
  chan : Bool
  pc1 : Nat
  pc2 : Nat
  obs1 : Int
  obs2 : Int
  deriving DecidableEq, Repr

/-- Initial state of `test_lock`: lock free around the value `5`, channel
unsignalled, both tasks at their first statement. -/
def raceStart : RaceState :=
  { writers := 0, readers := 0, value := 5, chan := false,
    pc1 := 0, pc2 := 0, obs1 := 0, obs2 := 0 }

/-- Modelled from the spec: one interleaved step of the two `test_lock`
tasks.  Lock semantics follow §4.2 of the spec (a write acquisition
completes only when no writer and no reader holds access; the engine's
primitive itself is outside `src/`).  Task 1: acquire write → send on the
oneshot channel → sleep (a pure suspension) → `assert_eq!(*lock, 5)` →
`*lock = 10` → release.  Task 2: await the channel → acquire write →
`assert_eq!(*lock, 10)` → `*lock = 11` → release. -/
inductive RaceStep : RaceState → RaceState → Prop where
  | t1_acquire (s : RaceState) :
      s.pc1 = 0 → s.writers = 0 → s.readers = 0 →
      RaceStep s { s with pc1 := 1, writers := 1 }
  | t1_send (s : RaceState) :
      s.pc1 = 1 → RaceStep s { s with pc1 := 2, chan := true }
  | t1_sleep (s : RaceState) :
      s.pc1 = 2 → RaceStep s { s with pc1 := 3 }
  | t1_observe (s : RaceState) :
      s.pc1 = 3 → RaceStep s { s with pc1 := 4, obs1 := s.value }
  | t1_write (s : RaceState) :
      s.pc1 = 4 → RaceStep s { s with pc1 := 5, value := 10 }
  | t1_release (s : RaceState) :
      s.pc1 = 5 → RaceStep s { s with pc1 := 6, writers := 0 }
  | t2_wait (s : RaceState) :
      s.pc2 = 0 → s.chan = true → RaceStep s { s with pc2 := 1 }
  | t2_acquire (s : RaceState) :
      s.pc2 = 1 → s.writers = 0 → s.readers = 0 →
      RaceStep s { s with pc2 := 2, writers := 1 }
  | t2_observe (s : RaceState) :
      s.pc2 = 2 → RaceStep s { s with pc2 := 3, obs2 := s.value }
  | t2_write (s : RaceState) :
      s.pc2 = 3 → RaceStep s { s with pc2 := 4, value := 11 }
  | t2_release (s : RaceState) :
      s.pc2 = 4 → RaceStep s { s with pc2 := 5, writers := 0 }

/-- The completed `test_lock` run: the state after both tasks finish. -/
def raceEnd : RaceState :=
  { writers := 0, readers := 0, value := 11, chan := true,
    pc1 := 6, pc2 := 5, obs1 := 5, obs2 := 10 }

/-- A state is reachable when some interleaving of the two tasks produces
it from `raceStart`. -/
def raceReachable (s : RaceState) : Prop :=
  Relation.ReflTransGen RaceStep raceStart s

/-- Inductive invariant of the `test_lock` transition system: lock
bookkeeping, mutual exclusion of the two writers, the channel handshake
ordering (task 2 holds the lock only after task 1 has fully released), the
exact value of the protected integer at every program point, and the
values the two asserts observe. -/
def RaceInv (s : RaceState) : Prop :=
  s.pc1 ≤ 6 ∧ s.pc2 ≤ 5 ∧ s.readers = 0 ∧
  ((1 ≤ s.pc1 ∧ s.pc1 ≤ 5) ∨ (2 ≤ s.pc2 ∧ s.pc2 ≤ 4) → s.writers = 1) ∧
  (¬((1 ≤ s.pc1 ∧ s.pc1 ≤ 5) ∨ (2 ≤ s.pc2 ∧ s.pc2 ≤ 4)) → s.writers = 0) ∧
  ¬((1 ≤ s.pc1 ∧ s.pc1 ≤ 5) ∧ (2 ≤ s.pc2 ∧ s.pc2 ≤ 4)) ∧
  (s.chan = true ↔ 2 ≤ s.pc1) ∧
  (1 ≤ s.pc2 → 2 ≤ s.pc1) ∧
  (2 ≤ s.pc2 → s.pc1 = 6) ∧
  (4 ≤ s.pc2 → s.value = 11) ∧
  (¬4 ≤ s.pc2 → 5 ≤ s.pc1 → s.value = 10) ∧
  (¬4 ≤ s.pc2 → ¬5 ≤ s.pc1 → s.value = 5) ∧
  (4 ≤ s.pc1 → s.obs1 = 5) ∧
  (3 ≤ s.pc2 → s.obs2 = 10)

theorem raceInv_start : RaceInv raceStart := by
  simp [RaceInv, raceStart]

theorem raceInv_step {s s' : RaceState} (hInv : RaceInv s)
    (hStep : RaceStep s s') : RaceInv s' := by
  obtain ⟨w, r, v, c, p1, p2, o1, o2⟩ := s
  cases hStep <;> cases c <;>
    first
      | ((simp only [RaceInv] at hInv ⊢; simp_all) <;> omega)
      | (obtain ⟨hp1, hp2, hr, hwa, hwb, hx, hc, hh1, hh2, hv1, hv2, hv3,
           ho1, ho2⟩ := hInv
         exfalso
         rename_i h1 h2 h3
         dsimp only at *
         simp only [Bool.false_eq_true, false_iff, not_le] at hc
         exact absurd (hh1 (by omega)) (by omega))

theorem raceInv_reachable {s : RaceState} (h : raceReachable s) :
    RaceInv s := by
  induction h with
  | refl => exact raceInv_start
  | tail _ hstep ih => exact raceInv_step ih hstep

theorem wrap32_of_bounds {n : Int} (h1 : -(2 ^ 31) ≤ n) (h2 : n < 2 ^ 31) :
    wrap32 n = n := by
  unfold wrap32
  rw [Int.emod_eq_of_lt (by omega) (by omega)]
  omega

/-- C1: On a fresh `Controller` (sequence number 0), `one(5)` returns
`Ok(1)` and leaves the sequence number at 1; the subsequent `two("potato")`
returns exactly `Ok("two?val=potato&seq=2")` — the descriptor embeds the
post-increment sequence number 2 — so the sequence increases by exactly one
per successful mutation. -/
theorem fresh_sequencer_one_then_two :
    ReqData.default.seq = 0 ∧
    (Controller.one ReqData.default 5).2.2 = Except.ok 1 ∧
    (Controller.one ReqData.default 5).1.seq = 1 ∧
    (Controller.two (Controller.one ReqData.default 5).1 "potato").2.2
        = Except.ok "two?val=potato&seq=2" ∧
    (Controller.two (Controller.one ReqData.default 5).1 "potato").1.seq
        = 2 := by
  exact ⟨rfl, rfl, rfl, rfl, rfl⟩

/-- C2: For every prior sequencer state, `one(3)` returns the business
error `"sorry, not that one"`, returns the state unchanged (neither `seq`
nor `last_path` is touched), and performs no lock acquisition at all (the
emitted lock-event list is empty). -/
theorem one_three_rejected_without_mutation (s : ReqData) :
    Controller.one s 3 = (s, [], Except.error "sorry, not that one") := by
  rfl

/-- C3: Calling `two` (or `one`) on the dispatcher before `init()` fails
with the config error `"call init first"` and leaves the singleton state
untouched; after `init()`, the `one(5)`, `one(3)`, `two("potato")`
sequence reproduces through the dispatcher exactly the results the
controller itself produces on a fresh state. -/
theorem dispatcher_before_and_after_init :
    (Device.two Device.empty "quack").2 = Except.error "call init first" ∧
    (Device.two Device.empty "quack").1 = Device.empty ∧
    (Device.one (Device.init Device.empty) 5).2
        = (Controller.one ReqData.default 5).2.2 ∧
    (Device.one (Device.init Device.empty) 5).2 = Except.ok 1 ∧
    (Device.one (Device.one (Device.init Device.empty) 5).1 3).2
        = Except.error "sorry, not that one" ∧
    (Device.one (Device.one (Device.init Device.empty) 5).1 3).1
        = (Device.one (Device.init Device.empty) 5).1 ∧
    (Device.two (Device.one (Device.init Device.empty) 5).1 "potato").2
        = Except.ok "two?val=potato&seq=2" := by
  exact ⟨rfl, rfl, rfl, rfl, rfl, rfl, rfl⟩

/-- C4: At the sequencer layer the only failure is the `val == 3`
rejection in `one`: the pretend network request itself always returns
`Ok`, `two` succeeds on every string and every prior state, and `one`
succeeds on every integer other than 3. -/
theorem sequencer_only_failure_is_val_three :
    (∀ (s : ReqData) (path : String),
        (Controller.request s path).2.2 = Except.ok ()) ∧
    (∀ (s : ReqData) (val : Int), val ≠ 3 →
        ∃ n, (Controller.one s val).2.2 = Except.ok n) ∧
    (∀ (s : ReqData) (val : String),
        ∃ p, (Controller.two s val).2.2 = Except.ok p) := by
  refine ⟨fun s path => rfl, fun s val h => ?_, fun s val => ?_⟩
  · refine ⟨wrap32 (s.seq + 1), ?_⟩
    unfold Controller.one
    rw [if_neg h]
    rfl
  · exact ⟨"two?val=" ++ toString val ++ "&seq="
        ++ toString (wrap32 (s.seq + 1)), rfl⟩

/-- Witness for C4 at concrete inputs. -/
theorem sequencer_only_failure_is_val_three_witness :
    (5 : Int) ≠ 3 ∧
    (∃ n, (Controller.one ReqData.default 5).2.2 = Except.ok n) :=
  ⟨by decide,
   sequencer_only_failure_is_val_three.2.1 ReqData.default 5 (by decide)⟩

/-- C5: `ImplBox::with` invokes the supplied function on the erased
payload and returns its result exactly when the expected `TypeId` equals
the stored tag; on a mismatch it panics (`"id mismatch"`, embedded as the
`error` branch) and never produces an ordinary (`ok`) result. -/
theorem withPayload_tag_check {Ret : Type} (b : ImplBox) (id : TypeId)
    (f : Payload → Ret) :
    (b.id = id → b.withPayload id f = Except.ok (f b.ptr)) ∧
    (b.id ≠ id → b.withPayload id f = Except.error "id mismatch") ∧
    (∀ r, b.withPayload id f = Except.ok r → b.id = id ∧ r = f b.ptr) := by
  by_cases h : b.id = id <;>
    simp [ImplBox.withPayload, h]

/-- Witness for C5 at a concrete handle, matching and mismatched tag. -/
theorem withPayload_tag_check_witness :
    (ImplBox.new 0 (fun _ => ())
        (Payload.lockI32 (TokioLockWrapper.new 7))).withPayload 0
        (fun p => p)
      = Except.ok (Payload.lockI32 (TokioLockWrapper.new 7)) ∧
    (ImplBox.new 0 (fun _ => ())
        (Payload.lockI32 (TokioLockWrapper.new 7))).withPayload 1
        (fun p => p)
      = Except.error "id mismatch" :=
  ⟨(withPayload_tag_check _ _ _).1 rfl,
   (withPayload_tag_check _ _ _).2.1 (by decide)⟩

/-- C6: Round trip through the opaque handle: boxing any value with
`box_lock` and unboxing through the matching accessor recovers exactly the
lock around the original value (reading it back gives the original), while
unboxing through the mismatched accessor hits the tag check and panics
(`"id mismatch"`) instead of silently misinterpreting the payload. -/
theorem implbox_roundtrip_and_mismatch (v : Int) :
    TokioRuntime.unbox_lock_i32 (TokioRuntime.box_lock_i32 v)
        = Except.ok (some (TokioLockWrapper.new v)) ∧
    (TokioLockWrapper.new v).readGuard = v ∧
    TokioRuntime.unbox_lock_reqData (TokioRuntime.box_lock_i32 v)
        = Except.error "id mismatch" := by
  exact ⟨rfl, rfl, rfl⟩

/-- C7 counterexample: the claim's unconditional "monotonically
non-decreasing, incremented by exactly one per successful request" fails
at the concrete prior state with `seq = 2^31 - 1`: the request completes
successfully yet the stored `i32` wraps, so the new sequence number is
strictly smaller than the old one. -/
theorem request_seq_wraps_at_i32_max :
    (Controller.request { seq := 2 ^ 31 - 1, last_path := "" }
        "one?val=5").2.2 = Except.ok () ∧
    (Controller.request { seq := 2 ^ 31 - 1, last_path := "" }
        "one?val=5").1.seq
      < ({ seq := 2 ^ 31 - 1, last_path := "" } : ReqData).seq := by
  refine ⟨rfl, ?_⟩
  show wrap32 (2 ^ 31 - 1 + 1) < 2 ^ 31 - 1
  decide

/-- C7 (amended): every mutation succeeds and always leaves
`last_path = path ++ "&seq=" ++ seq` for the sequence number assigned by
that same mutation; and provided the prior sequence number is an `i32`
value below `2^31 - 1`, the mutation increments it by exactly one, hence
non-decreasingly. -/
theorem request_descriptor_and_bounded_increment (s : ReqData)
    (path : String) :
    (Controller.request s path).2.2 = Except.ok () ∧
    (Controller.request s path).1.last_path
        = path ++ "&seq=" ++ toString (Controller.request s path).1.seq ∧
    (-(2 ^ 31) ≤ s.seq → s.seq < 2 ^ 31 - 1 →
      (Controller.request s path).1.seq = s.seq + 1 ∧
      s.seq ≤ (Controller.request s path).1.seq) := by
  refine ⟨rfl, rfl, fun h1 h2 => ?_⟩
  have : wrap32 (s.seq + 1) = s.seq + 1 :=
    wrap32_of_bounds (by omega) (by omega)
  constructor
  · exact this
  · show s.seq ≤ wrap32 (s.seq + 1)
    omega

/-- Witness for the amended C7 at the fresh state. -/
theorem request_descriptor_and_bounded_increment_witness :
    (Controller.request ReqData.default "p").1.seq
      = ReqData.default.seq + 1 :=
  ((request_descriptor_and_bounded_increment ReqData.default "p").2.2
    (by decide) (by decide)).1

/-- C8: In every interleaving of the `test_lock` handshake: at most one
writer holds the lock and no reader does while one holds it; task 2's
write acquisition completes only after task 1 has fully released
(`2 ≤ pc2 → pc1 = 6`); at acquisition task 2 observes exactly the state
task 1 left (`10`, never `5` mid-critical-section); and when both tasks
have finished the protected value is `11` — never `6` or `10`. -/
theorem rwlock_race_exclusion_and_final_value (s : RaceState)
    (h : raceReachable s) :
    (s.writers ≤ 1 ∧ (1 ≤ s.writers → s.readers = 0)) ∧
    (2 ≤ s.pc2 → s.pc1 = 6) ∧
    (s.pc2 = 2 → s.value = 10) ∧
    (3 ≤ s.pc2 → s.obs2 = 10) ∧
    (4 ≤ s.pc1 → s.obs1 = 5) ∧
    (s.pc1 = 6 ∧ s.pc2 = 5 → s.value = 11) := by
  obtain ⟨hp1, hp2, hr, hwa, hwb, hx, hc, hh1, hh2, hv1, hv2, hv3, ho1, ho2⟩ :=
    raceInv_reachable h
  refine ⟨⟨?_, fun _ => hr⟩, hh2, fun h2 => ?_, ho2, ho1, fun hfin => ?_⟩
  · by_cases hcond :
      (1 ≤ s.pc1 ∧ s.pc1 ≤ 5) ∨ (2 ≤ s.pc2 ∧ s.pc2 ≤ 4)
    · omega
    · omega
  · have h6 := hh2 (by omega)
    exact hv2 (by omega) (by omega)
  · exact hv1 (by omega)

/-- An explicit complete interleaving of the handshake, reaching
`raceEnd`. -/
theorem raceRun : raceReachable raceEnd :=
  Relation.ReflTransGen.head (RaceStep.t1_acquire _ rfl rfl rfl) <|
  Relation.ReflTransGen.head (RaceStep.t1_send _ rfl) <|
  Relation.ReflTransGen.head (RaceStep.t2_wait _ rfl rfl) <|
  Relation.ReflTransGen.head (RaceStep.t1_sleep _ rfl) <|
  Relation.ReflTransGen.head (RaceStep.t1_observe _ rfl) <|
  Relation.ReflTransGen.head (RaceStep.t1_write _ rfl) <|
  Relation.ReflTransGen.head (RaceStep.t1_release _ rfl) <|
  Relation.ReflTransGen.head (RaceStep.t2_acquire _ rfl rfl rfl) <|
  Relation.ReflTransGen.head (RaceStep.t2_observe _ rfl) <|
  Relation.ReflTransGen.head (RaceStep.t2_write _ rfl) <|
  Relation.ReflTransGen.head (RaceStep.t2_release _ rfl)
  Relation.ReflTransGen.refl

/-- Witness for C8 at the completed run: both asserts observed the
expected values and the final protected value is 11. -/
theorem rwlock_race_exclusion_and_final_value_witness :
    raceEnd.value = 11 ∧ raceEnd.obs2 = 10 ∧ raceEnd.writers ≤ 1 := by
  have h := rwlock_race_exclusion_and_final_value raceEnd raceRun
  exact ⟨h.2.2.2.2.2 ⟨rfl, rfl⟩, h.2.2.2.1 (by decide), h.1.1⟩

/-- C9: At the public surface both error kinds are plain message strings
in the same dynamic error type (`Except String` here): the `one(3)`
business rejection is exactly `"sorry, not that one"` and dispatch before
`init()` is exactly `"call init first"` — not the spec labels
`"not permitted"` / `"not initialized"`. -/
theorem error_messages_exact :
    (∀ s : ReqData,
        (Controller.one s 3).2.2 = Except.error "sorry, not that one") ∧
    (∀ val : String,
        (Device.two Device.empty val).2 = Except.error "call init first") ∧
    (∀ val : Int,
        (Device.one Device.empty val).2 = Except.error "call init first") ∧
    "sorry, not that one" ≠ "not permitted" ∧
    "call init first" ≠ "not initialized" :=
  ⟨fun _ => rfl, fun _ => rfl, fun _ => rfl, by decide, by decide⟩

/-- C10: `seq` is an `i32` incremented with no overflow guard: below
`2^31 - 1` the mutation adds exactly one, and at `2^31 - 1` the increment
wraps modulo `2^32` to the negative value `-2^31`. -/
theorem seq_i32_overflow_behavior (s : ReqData) (path : String) :
    (-(2 ^ 31) ≤ s.seq → s.seq < 2 ^ 31 - 1 →
        (Controller.request s path).1.seq = s.seq + 1) ∧
    (s.seq = 2 ^ 31 - 1 →
        (Controller.request s path).1.seq = -(2 ^ 31) ∧
        (Controller.request s path).1.seq < 0) := by
  constructor
  · intro h1 h2
    exact wrap32_of_bounds (by omega) (by omega)
  · intro h
    have : (Controller.request s path).1.seq = wrap32 (s.seq + 1) := rfl
    rw [this, h]
    constructor
    · decide
    · decide

/-- Witness for C10: the no-overflow case at the fresh state and the
wrapping case at the `i32` maximum. -/
theorem seq_i32_overflow_behavior_witness :
    (Controller.request ReqData.default "p").1.seq = ReqData.default.seq + 1 ∧
    (Controller.request { seq := 2 ^ 31 - 1, last_path := "" } "p").1.seq
        = -(2 ^ 31) :=
  ⟨(seq_i32_overflow_behavior ReqData.default "p").1 (by decide) (by decide),
   ((seq_i32_overflow_behavior { seq := 2 ^ 31 - 1, last_path := "" } "p").2
      rfl).1⟩

end GoToRust
